import Mathlib

/-!
Shallow embedding of the rent-payment / landlord-ledger core of the
Royal-estate property-management application (src/app.py, src/appp.py).

Monetary amounts are embedded as rationals (`ℚ`): the Python code stores
REAL columns and computes with `float`, and every quantity the spec talks
about (prices, amounts, 10% fee splits) is exact decimal arithmetic.
Statuses, payment types and transaction types are free-form strings in
the SQLite store, and the code compares them against literals such as
"Vacant", "Full" or "credit", so they are embedded as `String`.
-/

namespace RoyalEstate

/-- Row of the `landlords` table (the fields the core reads). -/
structure Landlord where
  id : Nat
  fullName : String
deriving Repr, DecidableEq

/-- Row of the `properties` table (the fields the core reads). -/
structure Property where
  id : Nat
  landlordId : Nat
  price : ℚ
  status : String
deriving Repr, DecidableEq

/-- Row of the `property_units` table. -/
structure PropUnit where
  id : Nat
  propertyId : Nat
  price : ℚ
  status : String
  tenantId : Option Nat
deriving Repr, DecidableEq

/-- Row of the `tenants` table (the fields the core reads). -/
structure Tenant where
  id : Nat
  fullName : String
  propertyId : Option Nat
  unitId : Option Nat
  leaseStartDate : String
  leaseEndDate : String
deriving Repr, DecidableEq

/-- Row of the `payments` table.  `credit`/`debit` are the per-payment
landlord credit/fee columns written by `add_payment`; inserts that do not
mention them (the renewal flow) leave the schema default `0`. -/
structure Payment where
  id : Nat
  tenantId : Nat
  propertyId : Nat
  unitId : Option Nat
  amount : ℚ
  paymentType : String
  paymentMethod : String
  paymentDate : String
  balanceDue : ℚ
  status : String
  description : String
  credit : ℚ
  debit : ℚ
deriving Repr, DecidableEq

/-- Row of the `landlord_transactions` table (manual/automatic landlord
ledger entries). -/
structure LedgerEntry where
  id : Nat
  landlordId : Nat
  date : String
  narration : String
  transactionType : String
  amount : ℚ
  paymentMethod : String
deriving Repr, DecidableEq

/-- The stored state: all tables the payment/ledger core touches, plus
the AUTOINCREMENT counters for rows the core creates. -/
structure DB where
  landlords : List Landlord
  properties : List Property
  units : List PropUnit
  tenants : List Tenant
  payments : List Payment
  ledger : List LedgerEntry
  nextPaymentId : Nat
  nextLedgerId : Nat
deriving Repr, DecidableEq

/-! ## Shared queries -/

/-- `SELECT SUM(balance_due) FROM payments WHERE tenant_id = ? AND balance_due > 0`. -/
def totalOutstanding (db : DB) (tenantId : Nat) : ℚ :=
  ((db.payments.filter
      (fun p => p.tenantId == tenantId && decide (0 < p.balanceDue))).map
    (fun p => p.balanceDue)).sum

/-- `SELECT COUNT(*) FROM payments WHERE tenant_id = ? AND payment_type = 'Full'
AND balance_due = 0` — the renewal-detection query shared by `add_payment`
and `renew_rent`. -/
def completedCycles (db : DB) (tenantId : Nat) : Nat :=
  (db.payments.filter
    (fun p => p.tenantId == tenantId && p.paymentType == "Full" && p.balanceDue == 0)).length

/-! ## record_payment (`add_payment`, src/app.py lines 1201–1332) -/

/-- The row produced by `add_payment`'s tenant lookup: `tenants` INNER
JOINed with `properties` on `t.property_id` and LEFT JOINed with
`property_units` on `t.unit_id`.  `rentAmount` is the SQL
`CASE WHEN t.unit_id IS NOT NULL THEN u.price ELSE p.price END`: it is
`none` (SQL NULL) when the tenant references a unit row that does not
exist, in which case the Python `float(...)` conversion raises. -/
structure TenantCtx where
  tenant : Tenant
  propertyId : Nat
  landlordId : Nat
  unitId : Option Nat
  rentAmount : Option ℚ
deriving Repr, DecidableEq

def tenantPaymentCtx (db : DB) (tenantId : Nat) : Option TenantCtx :=
  match db.tenants.find? (fun t => t.id == tenantId) with
  | none => none
  | some t =>
    match t.propertyId.bind (fun pid => db.properties.find? (fun p => p.id == pid)) with
    | none => none
    | some prop =>
      let u := t.unitId.bind (fun uid => db.units.find? (fun w => w.id == uid))
      some { tenant := t
             propertyId := prop.id
             landlordId := prop.landlordId
             unitId := u.map (fun w => w.id)
             rentAmount :=
               if t.unitId.isSome then u.map (fun w => w.price) else some prop.price }

/-- The classification `add_payment` returns to its caller. -/
structure PaymentOutcome where
  paymentType : String
  balanceDue : ℚ
  credit : ℚ
  debit : ℚ
deriving Repr, DecidableEq

inductive PayError where
  /-- the tenant-lookup JOIN returned no row -/
  | tenantNotFound
  /-- "Payment amount … exceeds outstanding balance …" -/
  | exceedsOutstanding
  /-- "Payment amount … exceeds rent amount …" -/
  | exceedsRent
  /-- an exception raised inside the handler (e.g. `float(None)` when the
  tenant references a missing unit); caught, rolled back, reported 500 -/
  | internal
deriving Repr, DecidableEq

/-- The write phase of `add_payment`, shared by both classification
branches (fee split, INSERT of the payment row, defensive cleanup of
other open rows when a previously-outstanding balance was completed). -/
def persistPayment (db : DB) (tenantId : Nat) (ctx : TenantCtx) (amount : ℚ)
    (paymentType : String) (balanceDue totalOut : ℚ) (isRenewal : Bool)
    (paymentMethod paymentDate description : String) : DB × PaymentOutcome :=
  let creditDebit : ℚ × ℚ :=
    if balanceDue = 0 then
      if isRenewal ∧ totalOut = 0 then
        let deduction := amount * (1 / 10)
        (amount - deduction, deduction)
      else (amount, 0)
    else (0, 0)
  let newId := db.nextPaymentId
  let newPayment : Payment :=
    { id := newId
      tenantId := tenantId
      propertyId := ctx.propertyId
      unitId := ctx.unitId
      amount := amount
      paymentType := paymentType
      paymentMethod := paymentMethod
      paymentDate := paymentDate
      balanceDue := balanceDue
      status := "Paid"
      description := description
      credit := creditDebit.1
      debit := creditDebit.2 }
  let cleaned :=
    if 0 < totalOut ∧ balanceDue = 0 then
      db.payments.map (fun p =>
        if p.tenantId == tenantId && decide (0 < p.balanceDue) && p.id != newId then
          { p with balanceDue := 0, paymentType := "Full" }
        else p)
    else db.payments
  ({ db with payments := newPayment :: cleaned, nextPaymentId := newId + 1 },
   { paymentType := paymentType
     balanceDue := balanceDue
     credit := creditDebit.1
     debit := creditDebit.2 })

/-- `add_payment` (the POST handler body, inside one transaction).  An
`Except.error` models a path on which the transaction is rolled back. -/
def add_payment (db : DB) (tenantId : Nat) (amount : ℚ)
    (paymentMethod paymentDate description : String) :
    Except PayError (DB × PaymentOutcome) :=
  match tenantPaymentCtx db tenantId with
  | none => .error .tenantNotFound
  | some ctx =>
    match ctx.rentAmount with
    | none => .error .internal
    | some rentAmount =>
      let totalOut := totalOutstanding db tenantId
      let isRenewal := decide (1 ≤ completedCycles db tenantId)
      if 0 < totalOut then
        if totalOut < amount then .error .exceedsOutstanding
        else
          let paymentType := if totalOut ≤ amount then "Full" else "Partial"
          let balanceDue := if totalOut ≤ amount then 0 else totalOut - amount
          .ok (persistPayment db tenantId ctx amount paymentType balanceDue totalOut
                isRenewal paymentMethod paymentDate description)
      else
        if rentAmount < amount then .error .exceedsRent
        else
          let paymentType := if rentAmount ≤ amount then "Full" else "Partial"
          let balanceDue := if rentAmount ≤ amount then 0 else rentAmount - amount
          .ok (persistPayment db tenantId ctx amount paymentType balanceDue totalOut
                isRenewal paymentMethod paymentDate description)

/-- The surrounding request/transaction boundary: on any error path the
handler executes `conn.rollback()`, so the stored state reverts to the
state at the start of the call. -/
def add_payment_handler (db : DB) (tenantId : Nat) (amount : ℚ)
    (paymentMethod paymentDate description : String) : DB × Option PaymentOutcome :=
  match add_payment db tenantId amount paymentMethod paymentDate description with
  | .error _ => (db, none)
  | .ok (db', out) => (db', some out)

/-! ## renew_lease_with_payment (`renew_rent`, src/app.py lines 1812–1980) -/

/-- The row produced by `renew_rent`'s tenant lookup: `tenants` INNER
JOINed with `properties` and `landlords`, LEFT JOINed with
`property_units` on `t.unit_id`.  The SELECT starts with `t.*`, and
`sqlite3.Row` resolves a name to its first matching column, so
`tenant['unit_id']` is `tenants.unit_id` itself (not the joined `u.id`):
`unitId` here is the tenant's own `unit_id` column.  `rentAmount` models
`float(tenant['unit_price'] if unit_id else tenant['property_price'])`:
it is `none` (SQL NULL `unit_price`) when the tenant's `unit_id` is set
but the unit row does not exist, in which case the Python `float(None)`
conversion raises `TypeError` and the handler rolls back with no
writes. -/
structure RenewCtx where
  tenant : Tenant
  propertyId : Nat
  landlordId : Nat
  unitId : Option Nat
  rentAmount : Option ℚ
deriving Repr, DecidableEq

def tenantRenewCtx (db : DB) (tenantId : Nat) : Option RenewCtx :=
  match db.tenants.find? (fun t => t.id == tenantId) with
  | none => none
  | some t =>
    match t.propertyId.bind (fun pid => db.properties.find? (fun p => p.id == pid)) with
    | none => none
    | some prop =>
      match db.landlords.find? (fun l => l.id == prop.landlordId) with
      | none => none
      | some _ =>
        let u := t.unitId.bind (fun uid => db.units.find? (fun w => w.id == uid))
        some { tenant := t
               propertyId := prop.id
               landlordId := prop.landlordId
               unitId := t.unitId
               rentAmount :=
                 if t.unitId.isSome then u.map (fun w => w.price)
                 else some prop.price }

inductive RenewError where
  /-- the `not all([tenant_id, new_start_date, new_end_date, amount,
  payment_method])` validation failed — rejected before the transaction -/
  | missingFields
  /-- the tenant-lookup JOIN returned no row -/
  | tenantNotFound
  /-- an exception raised inside the transaction (`float(None)` when the
  tenant references a missing unit); caught and rolled back -/
  | internal
deriving Repr, DecidableEq

/-- `renew_rent` (the POST handler body): validate the required fields,
then inside one transaction update the lease dates, insert a payment row
carrying the caller-supplied `payment_type` hint, and write the landlord
ledger entries — two (credit of the full amount, 10% fee debit) when the
tenant already has a completed Full/zero-balance payment, one credit
otherwise.  `amount` arrives already parsed: the handler rejects a
missing or non-numeric amount string before the transaction begins, with
no writes either way.  An `Except.error` models a path on which nothing
is persisted (rejected before the transaction, or rolled back). -/
def renew_rent (db : DB) (tenantId : Nat) (newStartDate newEndDate : String)
    (amount : ℚ) (paymentMethod paymentType paymentDate description : String) :
    Except RenewError DB :=
  if tenantId == 0 || newStartDate == "" || newEndDate == "" || paymentMethod == ""
  then .error .missingFields
  else
  match tenantRenewCtx db tenantId with
  | none => .error .tenantNotFound
  | some ctx =>
    match ctx.rentAmount with
    | none => .error .internal
    | some rentAmount =>
    let isRenewal := decide (1 ≤ completedCycles db tenantId)
    let balanceDue : ℚ := if paymentType == "Partial" then rentAmount - amount else 0
    let tenants' := db.tenants.map (fun t =>
      if t.id == tenantId then
        { t with leaseStartDate := newStartDate, leaseEndDate := newEndDate }
      else t)
    let newPayment : Payment :=
      { id := db.nextPaymentId
        tenantId := tenantId
        propertyId := ctx.propertyId
        unitId := ctx.unitId
        amount := amount
        paymentType := paymentType
        paymentMethod := paymentMethod
        paymentDate := paymentDate
        balanceDue := balanceDue
        status := "Paid"
        description :=
          if description == "" then
            "Lease renewal payment (" ++ newStartDate ++ " to " ++ newEndDate ++ ")"
          else description
        credit := 0
        debit := 0 }
    let db1 := { db with tenants := tenants'
                         payments := newPayment :: db.payments
                         nextPaymentId := db.nextPaymentId + 1 }
    if isRenewal then
      let creditEntry : LedgerEntry :=
        { id := db1.nextLedgerId
          landlordId := ctx.landlordId
          date := paymentDate
          narration :=
            if description == "" then "Rent renewal - " ++ ctx.tenant.fullName
            else description
          transactionType := "credit"
          amount := amount
          paymentMethod := paymentMethod }
      let deductionAmount := amount * (1 / 10)
      let debitEntry : LedgerEntry :=
        { id := db1.nextLedgerId + 1
          landlordId := ctx.landlordId
          date := paymentDate
          narration := "Management fee deduction (10%)"
          transactionType := "debit"
          amount := deductionAmount
          paymentMethod := "Automatic Deduction" }
      .ok { db1 with ledger := debitEntry :: creditEntry :: db1.ledger
                     nextLedgerId := db1.nextLedgerId + 2 }
    else
      let creditEntry : LedgerEntry :=
        { id := db1.nextLedgerId
          landlordId := ctx.landlordId
          date := paymentDate
          narration :=
            if description == "" then
              "Rent payment - " ++ ctx.tenant.fullName ++ " (First payment)"
            else description
          transactionType := "credit"
          amount := amount
          paymentMethod := paymentMethod }
      .ok { db1 with ledger := creditEntry :: db1.ledger
                     nextLedgerId := db1.nextLedgerId + 1 }

/-! ## assign_tenant (src/app.py lines 772–846) -/

inductive AssignError where
  | missingParams
  | tenantNotFound
  | alreadyAssigned
  | unitNotFound
  | unitPropertyMismatch
  | unitNotAvailable
  | propertyNotFound
  | propertyNotAvailable
deriving Repr, DecidableEq

/-- `assign_tenant`.  `unitId` is the request's `unit_id` after the
handler's `data.get('unit_id') or None` normalization.  An
`Except.error` models a path on which the transaction is rolled back. -/
def assign_tenant (db : DB) (tenantId propertyId : Nat) (unitId : Option Nat) :
    Except AssignError DB :=
  if tenantId == 0 || propertyId == 0 then .error .missingParams
  else
    match db.tenants.find? (fun t => t.id == tenantId) with
    | none => .error .tenantNotFound
    | some t =>
      if t.propertyId.isSome || t.unitId.isSome then .error .alreadyAssigned
      else
        match unitId with
        | some uid =>
          match db.units.find? (fun u => u.id == uid) with
          | none => .error .unitNotFound
          | some u =>
            if u.propertyId != propertyId then .error .unitPropertyMismatch
            else if u.status != "Vacant" then .error .unitNotAvailable
            else
              let tenants' := db.tenants.map (fun s =>
                if s.id == tenantId then
                  { s with propertyId := some propertyId, unitId := some uid }
                else s)
              let units' := db.units.map (fun w =>
                if w.id == uid then
                  { w with status := "Occupied", tenantId := some tenantId }
                else w)
              let totalUnits := (units'.filter (fun w => w.propertyId == propertyId)).length
              let occupiedUnits :=
                (units'.filter
                  (fun w => w.propertyId == propertyId && w.status == "Occupied")).length
              let properties' :=
                if totalUnits ≠ 0 ∧ totalUnits = occupiedUnits then
                  db.properties.map (fun pr =>
                    if pr.id == propertyId then { pr with status := "Occupied" } else pr)
                else db.properties
              .ok { db with tenants := tenants', units := units', properties := properties' }
        | none =>
          match db.properties.find? (fun pr => pr.id == propertyId) with
          | none => .error .propertyNotFound
          | some pr =>
            if pr.status != "Vacant" then .error .propertyNotAvailable
            else
              let tenants' := db.tenants.map (fun s =>
                if s.id == tenantId then
                  { s with propertyId := some propertyId, unitId := none }
                else s)
              let properties' := db.properties.map (fun q =>
                if q.id == propertyId then { q with status := "Occupied" } else q)
              .ok { db with tenants := tenants', properties := properties' }

/-- The request/transaction boundary around `assign_tenant`: every error
path rolls the transaction back, reverting to the pre-call state. -/
def assign_tenant_handler (db : DB) (tenantId propertyId : Nat) (unitId : Option Nat) :
    DB × Option AssignError :=
  match assign_tenant db tenantId propertyId unitId with
  | .error e => (db, some e)
  | .ok db' => (db', none)

/-! ## Landlord statement builder (`landlord_account_detail`,
src/appp.py lines 19–114, duplicated at src/app.py lines 2290–2345) -/

/-- ASCII lower-casing, the Python `(m['txn_type'] or '').lower()`
applied to the stored transaction-type strings. -/
def asciiLower (s : String) : String :=
  String.mk (s.data.map (fun c =>
    if 'A' ≤ c ∧ c ≤ 'Z' then Char.ofNat (c.toNat + 32) else c))

/-- One normalized line of the merged statement (the dicts built in the
two normalization loops). -/
structure StatementLine where
  date : String
  narration : String
  modeOfPayment : String
  credit : ℚ
  debit : ℚ
  source : String
  metaId : Nat
deriving Repr, DecidableEq

/-- Does this payment belong to the landlord?  (`LEFT JOIN properties
… WHERE prop.landlord_id = ?`: a payment whose property row is missing
has NULL `landlord_id` and is filtered out.) -/
def paymentBelongsTo (db : DB) (landlordId : Nat) (p : Payment) : Bool :=
  match db.properties.find? (fun pr => pr.id == p.propertyId) with
  | some pr => pr.landlordId == landlordId
  | none => false

/-- The tenant-name default used for a payment line's narration
(`p['narration'] or f"Payment from {p['tenant_name'] or 'Unknown tenant'}"`). -/
def paymentNarration (db : DB) (p : Payment) : String :=
  if p.description == "" then
    "Payment from " ++
      (match db.tenants.find? (fun t => t.id == p.tenantId) with
       | some t => t.fullName
       | none => "Unknown tenant")
  else p.description

/-- The merged, not-yet-sorted list: payment-derived lines (credit =
`payment.amount`, debit = 0) followed by manual landlord-transaction
lines (credit/debit according to `transaction_type`). -/
def mergedLines (db : DB) (landlordId : Nat) : List StatementLine :=
  (db.payments.filter (paymentBelongsTo db landlordId)).map
    (fun p =>
      { date := p.paymentDate
        narration := paymentNarration db p
        modeOfPayment := p.paymentMethod
        credit := p.amount
        debit := 0
        source := "payment"
        metaId := p.id })
  ++
  (db.ledger.filter (fun e => e.landlordId == landlordId)).map
    (fun e =>
      if asciiLower e.transactionType == "credit" then
        { date := e.date
          narration := e.narration
          modeOfPayment := e.paymentMethod
          credit := e.amount
          debit := 0
          source := "manual"
          metaId := e.id }
      else
        { date := e.date
          narration := e.narration
          modeOfPayment := e.paymentMethod
          credit := 0
          debit := e.amount
          source := "manual"
          metaId := e.id })

/-- Stable insertion step for the date-ascending sort: a new element is
placed after every already-placed element whose date is ≤ its own, which
is exactly the tie-breaking of Python's stable `list.sort`. -/
def insertByDate (e : StatementLine) : List StatementLine → List StatementLine
  | [] => [e]
  | x :: xs => if e.date < x.date then e :: x :: xs else x :: insertByDate e xs

/-- `merged.sort(key=lambda x: x['date'])` — stable sort by date ascending. -/
def sortByDate (l : List StatementLine) : List StatementLine :=
  l.foldl (fun acc e => insertByDate e acc) []

/-- The running-balance accumulator of the display loop:
`balance += credit - debit` over the lines in order. -/
def runBalance (init : ℚ) (l : List StatementLine) : ℚ :=
  l.foldl (fun b e => b + e.credit - e.debit) init

/-- The display loop, keeping each line's annotated running balance. -/
def annotateBalances (b : ℚ) : List StatementLine → List (StatementLine × ℚ)
  | [] => []
  | e :: es => (e, b + e.credit - e.debit) :: annotateBalances (b + e.credit - e.debit) es

/-- The full statement (`detailed` in the source): merged lines, sorted
by date ascending, each annotated with the running balance. -/
def landlord_account_detail (db : DB) (landlordId : Nat) : List (StatementLine × ℚ) :=
  annotateBalances 0 (sortByDate (mergedLines db landlordId))

/-! ## Dashboard general-account aggregate (src/app.py lines 364–394) -/

/-- `SELECT SUM(p.amount) FROM payments p LEFT JOIN properties pr … WHERE
pr.landlord_id = l.id` — payment total for one landlord. -/
def paymentsTotalFor (db : DB) (landlordId : Nat) : ℚ :=
  ((db.payments.filter (paymentBelongsTo db landlordId)).map (fun p => p.amount)).sum

/-- `SUM(CASE WHEN lt.transaction_type = 'credit' THEN lt.amount ELSE 0 END)`
over the landlord's ledger entries. -/
def manualCreditsFor (db : DB) (landlordId : Nat) : ℚ :=
  ((db.ledger.filter (fun e => e.landlordId == landlordId)).map
    (fun e => if e.transactionType == "credit" then e.amount else 0)).sum

/-- `SUM(CASE WHEN lt.transaction_type = 'debit' THEN lt.amount ELSE 0 END)`
over the landlord's ledger entries. -/
def manualDebitsFor (db : DB) (landlordId : Nat) : ℚ :=
  ((db.ledger.filter (fun e => e.landlordId == landlordId)).map
    (fun e => if e.transactionType == "debit" then e.amount else 0)).sum

/-- The dashboard accumulation loop: `general_balance += payments_total +
manual_credits - manual_debits` over all landlord rows. -/
def general_balance_all_landlords (db : DB) : ℚ :=
  db.landlords.foldl
    (fun acc l => acc + (paymentsTotalFor db l.id + manualCreditsFor db l.id
                          - manualDebitsFor db l.id)) 0

/-! ## Helper lemmas -/

theorem foldl_add_eq_sum {α : Type} (f : α → ℚ) (l : List α) (init : ℚ) :
    l.foldl (fun acc x => acc + f x) init = init + (l.map f).sum := by
  induction l generalizing init with
  | nil => simp
  | cons x xs ih => simp [ih]; ring

theorem totalOutstanding_nonneg (db : DB) (tenantId : Nat) :
    0 ≤ totalOutstanding db tenantId := by
  unfold totalOutstanding
  apply List.sum_nonneg
  intro x hx
  obtain ⟨p, hp, rfl⟩ := List.mem_map.mp hx
  have := (List.mem_filter.mp hp).2
  simp only [Bool.and_eq_true, decide_eq_true_eq] at this
  exact le_of_lt this.2

theorem runBalance_eq_sum (init : ℚ) (l : List StatementLine) :
    runBalance init l = init + (l.map (fun e => e.credit - e.debit)).sum := by
  induction l generalizing init with
  | nil => simp [runBalance]
  | cons e es ih =>
    simp only [runBalance, List.foldl_cons, List.map_cons, List.sum_cons] at *
    rw [ih]; ring

theorem map_credit_sub_debit_sum (l : List StatementLine) :
    (l.map (fun e => e.credit - e.debit)).sum =
      (l.map (fun e => e.credit)).sum - (l.map (fun e => e.debit)).sum := by
  induction l with
  | nil => simp
  | cons e es ih => simp [ih]; ring

theorem insertByDate_perm (e : StatementLine) (l : List StatementLine) :
    (insertByDate e l).Perm (e :: l) := by
  induction l with
  | nil => simp [insertByDate]
  | cons x xs ih =>
    unfold insertByDate
    split
    · exact List.Perm.refl _
    · exact (List.Perm.cons x ih).trans (List.Perm.swap e x xs)

theorem sortByDate_perm (l : List StatementLine) : (sortByDate l).Perm l := by
  have aux : ∀ (l acc : List StatementLine),
      (l.foldl (fun acc e => insertByDate e acc) acc).Perm (l ++ acc) := by
    intro l
    induction l with
    | nil => intro acc; simp
    | cons e es ih =>
      intro acc
      have h1 := ih (insertByDate e acc)
      have h2 : (es ++ insertByDate e acc).Perm (es ++ (e :: acc)) :=
        List.Perm.append_left es (insertByDate_perm e acc)
      have h3 : (es ++ (e :: acc)).Perm (e :: (es ++ acc)) := List.perm_middle
      exact (h1.trans h2).trans h3
  have h := aux l []
  simpa [sortByDate] using h

theorem annotateBalances_chain (b : ℚ) (l : List StatementLine) :
    List.Chain' (fun x y : StatementLine × ℚ => y.2 = x.2 + y.1.credit - y.1.debit)
      (annotateBalances b l) := by
  induction l generalizing b with
  | nil => simp [annotateBalances]
  | cons e es ih =>
    cases es with
    | nil => simp [annotateBalances]
    | cons e2 es2 =>
      rw [annotateBalances]
      rw [List.chain'_cons']
      constructor
      · intro y hy
        rw [annotateBalances] at hy
        simp only [List.head?_cons, Option.mem_def, Option.some.injEq] at hy
        subst hy
        rfl
      · exact ih _

theorem annotateBalances_head (b : ℚ) (e : StatementLine) (l : List StatementLine) :
    (annotateBalances b (e :: l)).head? = some (e, b + e.credit - e.debit) := rfl

theorem filter_case_sum (l : List LedgerEntry) (p q : LedgerEntry → Bool) :
    ((l.filter p).map (fun e => if q e then e.amount else 0)).sum =
      ((l.filter (fun e => p e && q e)).map (fun e => e.amount)).sum := by
  induction l with
  | nil => simp
  | cons e es ih =>
    by_cases hp : p e
    · by_cases hq : q e
      · simp [List.filter_cons, hp, hq, ih]
      · simp [List.filter_cons, hp, hq, ih]
    · simp [List.filter_cons, hp, ih]

theorem length_filter_and_le {α : Type} (l : List α) (p q : α → Bool) :
    (l.filter (fun a => p a && q a)).length ≤ (l.filter p).length := by
  induction l with
  | nil => simp
  | cons x xs ih =>
    by_cases hp : p x
    · by_cases hq : q x
      · simpa [List.filter_cons, hp, hq] using Nat.succ_le_succ ih
      · simpa [List.filter_cons, hp, hq] using le_trans ih (Nat.le_succ _)
    · simpa [List.filter_cons, hp] using ih

theorem length_filter_and_eq_iff {α : Type} (l : List α) (p q : α → Bool) :
    (l.filter p).length = (l.filter (fun a => p a && q a)).length ↔
      ∀ a ∈ l, p a → q a := by
  induction l with
  | nil => simp
  | cons x xs ih =>
    by_cases hp : p x
    · by_cases hq : q x
      · simp [List.filter_cons, hp, hq, ih]
      · constructor
        · intro h
          exfalso
          have hle := length_filter_and_le xs p q
          simp [List.filter_cons, hp, hq] at h
          omega
        · intro h
          exact absurd (h x (List.mem_cons_self x xs) hp) (by simp [hq])
    · have hstep : (List.filter p (x :: xs)).length =
          (List.filter (fun a => p a && q a) (x :: xs)).length ↔
          (List.filter p xs).length = (List.filter (fun a => p a && q a) xs).length := by
        simp [List.filter_cons, hp]
      rw [hstep, ih]
      constructor
      · intro h a ha hpa
        rcases List.mem_cons.mp ha with rfl | haxs
        · exact absurd hpa (by simp [hp])
        · exact h a haxs hpa
      · intro h a ha hpa
        exact h a (List.mem_cons_of_mem x ha) hpa

/-! ## Concrete stored states used to instantiate the theorems -/

def wLandlord : Landlord := { id := 1, fullName := "Ada Obi" }

def wProperty : Property :=
  { id := 1, landlordId := 1, price := 1500, status := "Occupied" }

def wTenant : Tenant :=
  { id := 1, fullName := "Tunde Bello", propertyId := some 1, unitId := none
    leaseStartDate := "2024-01-01", leaseEndDate := "2025-01-01" }

/-- One landlord, one standalone property (rent 1500), one assigned tenant,
no payments yet. -/
def wDB : DB :=
  { landlords := [wLandlord], properties := [wProperty], units := []
    tenants := [wTenant], payments := [], ledger := []
    nextPaymentId := 1, nextLedgerId := 1 }

def wOpenPayment : Payment :=
  { id := 1, tenantId := 1, propertyId := 1, unitId := none, amount := 1000
    paymentType := "Partial", paymentMethod := "Cash", paymentDate := "2024-01-02"
    balanceDue := 500, status := "Paid", description := "", credit := 0, debit := 0 }

/-- Same state after a partial payment of 1000: one open row with 500 due. -/
def wOpenDB : DB := { wDB with payments := [wOpenPayment], nextPaymentId := 2 }

def wFullPayment : Payment :=
  { id := 1, tenantId := 1, propertyId := 1, unitId := none, amount := 1500
    paymentType := "Full", paymentMethod := "Cash", paymentDate := "2024-01-02"
    balanceDue := 0, status := "Paid", description := "", credit := 1500, debit := 0 }

/-- Same state after one fully completed cycle: the next payment is a renewal. -/
def wFullDB : DB := { wDB with payments := [wFullPayment], nextPaymentId := 2 }

def wCtx : TenantCtx :=
  { tenant := wTenant, propertyId := 1, landlordId := 1, unitId := none
    rentAmount := some 1500 }

def wRenewCtx : RenewCtx :=
  { tenant := wTenant, propertyId := 1, landlordId := 1, unitId := none
    rentAmount := some 1500 }

/-! ## C1 -/

/-- Claim C1: for a `record_payment` call on an existing assigned tenant,
with a positive outstanding balance the call is rejected when the amount
exceeds it and otherwise classified Full/Partial against the outstanding
balance with `balance_due = max 0 (outstanding − amount)`; with no
outstanding balance the call is rejected when the amount exceeds the rent
due and otherwise classified against the rent due with
`balance_due = max 0 (rent_due − amount)`. -/
theorem add_payment_classification (db : DB) (tenantId : Nat) (amount : ℚ)
    (pm pd ds : String) (ctx : TenantCtx) (rent : ℚ)
    (hctx : tenantPaymentCtx db tenantId = some ctx)
    (hrent : ctx.rentAmount = some rent) :
    (0 < totalOutstanding db tenantId →
      (totalOutstanding db tenantId < amount →
        add_payment db tenantId amount pm pd ds = .error .exceedsOutstanding) ∧
      (amount ≤ totalOutstanding db tenantId →
        ∃ db' out, add_payment db tenantId amount pm pd ds = .ok (db', out) ∧
          out.paymentType =
            (if totalOutstanding db tenantId ≤ amount then "Full" else "Partial") ∧
          out.balanceDue = max 0 (totalOutstanding db tenantId - amount))) ∧
    (totalOutstanding db tenantId = 0 →
      (rent < amount →
        add_payment db tenantId amount pm pd ds = .error .exceedsRent) ∧
      (amount ≤ rent →
        ∃ db' out, add_payment db tenantId amount pm pd ds = .ok (db', out) ∧
          out.paymentType = (if rent ≤ amount then "Full" else "Partial") ∧
          out.balanceDue = max 0 (rent - amount))) := by
  constructor
  · intro hpos
    constructor
    · intro hgt
      simp only [add_payment, hctx, hrent]
      rw [if_pos hpos, if_pos hgt]
    · intro hle
      simp only [add_payment, hctx, hrent]
      rw [if_pos hpos, if_neg (not_lt.mpr hle)]
      refine ⟨_, _, rfl, ?_, ?_⟩
      · simp [persistPayment]
      · simp only [persistPayment]
        rcases le_or_lt (totalOutstanding db tenantId) amount with h | h
        · rw [if_pos h]
          exact (max_eq_left (sub_nonpos.mpr h)).symm
        · rw [if_neg (not_le.mpr h)]
          exact (max_eq_right (le_of_lt (sub_pos.mpr h))).symm
  · intro hzero
    constructor
    · intro hgt
      simp only [add_payment, hctx, hrent]
      rw [if_neg (by rw [hzero]; exact lt_irrefl 0), if_pos hgt]
    · intro hle
      simp only [add_payment, hctx, hrent]
      rw [if_neg (by rw [hzero]; exact lt_irrefl 0), if_neg (not_lt.mpr hle)]
      refine ⟨_, _, rfl, ?_, ?_⟩
      · simp [persistPayment]
      · simp only [persistPayment]
        rcases le_or_lt rent amount with h | h
        · rw [if_pos h]
          exact (max_eq_left (sub_nonpos.mpr h)).symm
        · rw [if_neg (not_le.mpr h)]
          exact (max_eq_right (le_of_lt (sub_pos.mpr h))).symm

/-- Witness for C1: in `wOpenDB` (outstanding 500), a payment of 300 is
accepted as Partial with `balance_due = 200`. -/
theorem add_payment_classification_witness :
    (0 : ℚ) < totalOutstanding wOpenDB 1 ∧ (300 : ℚ) ≤ totalOutstanding wOpenDB 1 ∧
    ∃ db' out, add_payment wOpenDB 1 300 "Cash" "2024-02-02" "" = .ok (db', out) ∧
      out.paymentType = (if totalOutstanding wOpenDB 1 ≤ (300 : ℚ) then "Full" else "Partial") ∧
      out.balanceDue = max 0 (totalOutstanding wOpenDB 1 - 300) := by
  have h0 : totalOutstanding wOpenDB 1 = 500 := by
    norm_num [totalOutstanding, wOpenDB, wDB, wOpenPayment]
  refine ⟨by rw [h0]; norm_num, by rw [h0]; norm_num, ?_⟩
  exact ((add_payment_classification wOpenDB 1 300 "Cash" "2024-02-02" "" wCtx 1500
    (by norm_num [tenantPaymentCtx, wOpenDB, wDB, wTenant, wProperty, wCtx])
    (by norm_num [wCtx])).1 (by rw [h0]; norm_num)).2 (by rw [h0]; norm_num)

/-! ## C2 -/

theorem persistPayment_outcome (db : DB) (tenantId : Nat) (ctx : TenantCtx)
    (amount : ℚ) (pt : String) (bal t_o : ℚ) (isRen : Bool) (pm pd ds : String) :
    (persistPayment db tenantId ctx amount pt bal t_o isRen pm pd ds).2.paymentType = pt ∧
    (persistPayment db tenantId ctx amount pt bal t_o isRen pm pd ds).2.balanceDue = bal ∧
    (persistPayment db tenantId ctx amount pt bal t_o isRen pm pd ds).2.credit =
      (if bal = 0 then
        if isRen ∧ t_o = 0 then amount - amount * (1 / 10) else amount
       else 0) ∧
    (persistPayment db tenantId ctx amount pt bal t_o isRen pm pd ds).2.debit =
      (if bal = 0 then
        if isRen ∧ t_o = 0 then amount * (1 / 10) else 0
       else 0) ∧
    (persistPayment db tenantId ctx amount pt bal t_o isRen pm pd ds).1.payments.head? =
      some { id := db.nextPaymentId
             tenantId := tenantId
             propertyId := ctx.propertyId
             unitId := ctx.unitId
             amount := amount
             paymentType := pt
             paymentMethod := pm
             paymentDate := pd
             balanceDue := bal
             status := "Paid"
             description := ds
             credit :=
               (persistPayment db tenantId ctx amount pt bal t_o isRen pm pd ds).2.credit
             debit :=
               (persistPayment db tenantId ctx amount pt bal t_o isRen pm pd ds).2.debit } := by
  unfold persistPayment
  split_ifs <;> simp_all

/-- Claim C2: when a `record_payment` call completes a cycle
(`balance_due = 0`) and the tenant already had a completed Full cycle and
no outstanding balance entering the call, the stored credit is 90% and
the stored debit 10% of the amount, summing exactly to the amount; every
other completing payment stores credit = amount and debit = 0, and a
still-partial payment stores credit = debit = 0. -/
theorem add_payment_fee_split (db : DB) (tenantId : Nat) (amount : ℚ)
    (pm pd ds : String) (db' : DB) (out : PaymentOutcome)
    (h : add_payment db tenantId amount pm pd ds = .ok (db', out)) :
    (∃ p, db'.payments.head? = some p ∧ p.amount = amount ∧
      p.credit = out.credit ∧ p.debit = out.debit ∧ p.balanceDue = out.balanceDue) ∧
    (out.balanceDue = 0 →
      (1 ≤ completedCycles db tenantId ∧ totalOutstanding db tenantId = 0 →
        out.credit = amount * (9 / 10) ∧ out.debit = amount * (1 / 10) ∧
        out.credit + out.debit = amount) ∧
      (¬(1 ≤ completedCycles db tenantId ∧ totalOutstanding db tenantId = 0) →
        out.credit = amount ∧ out.debit = 0)) ∧
    (0 < out.balanceDue → out.credit = 0 ∧ out.debit = 0) := by
  unfold add_payment at h
  cases hctx : tenantPaymentCtx db tenantId with
  | none => rw [hctx] at h; cases h
  | some ctx =>
    rw [hctx] at h
    simp only at h
    cases hrent : ctx.rentAmount with
    | none => rw [hrent] at h; simp only at h; cases h
    | some rent =>
      rw [hrent] at h
      simp only at h
      by_cases hpos : 0 < totalOutstanding db tenantId
      · rw [if_pos hpos] at h
        by_cases hgt : totalOutstanding db tenantId < amount
        · rw [if_pos hgt] at h; cases h
        · rw [if_neg hgt] at h
          simp only [Except.ok.injEq] at h
          have hdb : db' = (persistPayment db tenantId ctx amount
              (if totalOutstanding db tenantId ≤ amount then "Full" else "Partial")
              (if totalOutstanding db tenantId ≤ amount then 0
               else totalOutstanding db tenantId - amount)
              (totalOutstanding db tenantId)
              (decide (1 ≤ completedCycles db tenantId)) pm pd ds).1 := by
            rw [h]
          have hout : out = (persistPayment db tenantId ctx amount
              (if totalOutstanding db tenantId ≤ amount then "Full" else "Partial")
              (if totalOutstanding db tenantId ≤ amount then 0
               else totalOutstanding db tenantId - amount)
              (totalOutstanding db tenantId)
              (decide (1 ≤ completedCycles db tenantId)) pm pd ds).2 := by
            rw [h]
          obtain ⟨hpt, hbal, hcr, hdeb, hhead⟩ := persistPayment_outcome db tenantId ctx
            amount
            (if totalOutstanding db tenantId ≤ amount then "Full" else "Partial")
            (if totalOutstanding db tenantId ≤ amount then 0
             else totalOutstanding db tenantId - amount)
            (totalOutstanding db tenantId)
            (decide (1 ≤ completedCycles db tenantId)) pm pd ds
          have hto : ¬((decide (1 ≤ completedCycles db tenantId) : Bool) = true ∧
              totalOutstanding db tenantId = 0) := by
            rintro ⟨-, hz⟩
            exact absurd hz (ne_of_gt hpos)
          refine ⟨⟨_, by rw [hdb]; exact hhead, rfl, by rw [hout], by rw [hout],
            by rw [hout]; exact hbal.symm ▸ rfl⟩, ?_, ?_⟩
          · intro hz
            refine ⟨fun hren => absurd hren.2 (ne_of_gt hpos), fun _ => ?_⟩
            rw [hout] at hz ⊢
            rw [hbal] at hz
            simp only [hcr, hdeb, if_pos hz, if_neg hto]
            exact ⟨trivial, trivial⟩
          · intro hz
            rw [hout] at hz ⊢
            rw [hbal] at hz
            simp only [hcr, hdeb, if_neg (ne_of_gt hz)]
            exact ⟨trivial, trivial⟩
      · rw [if_neg hpos] at h
        have hzero : totalOutstanding db tenantId = 0 :=
          le_antisymm (not_lt.mp hpos) (totalOutstanding_nonneg db tenantId)
        by_cases hgt : rent < amount
        · rw [if_pos hgt] at h; cases h
        · rw [if_neg hgt] at h
          simp only [Except.ok.injEq] at h
          have hdb : db' = (persistPayment db tenantId ctx amount
              (if rent ≤ amount then "Full" else "Partial")
              (if rent ≤ amount then 0 else rent - amount)
              (totalOutstanding db tenantId)
              (decide (1 ≤ completedCycles db tenantId)) pm pd ds).1 := by
            rw [h]
          have hout : out = (persistPayment db tenantId ctx amount
              (if rent ≤ amount then "Full" else "Partial")
              (if rent ≤ amount then 0 else rent - amount)
              (totalOutstanding db tenantId)
              (decide (1 ≤ completedCycles db tenantId)) pm pd ds).2 := by
            rw [h]
          obtain ⟨hpt, hbal, hcr, hdeb, hhead⟩ := persistPayment_outcome db tenantId ctx
            amount
            (if rent ≤ amount then "Full" else "Partial")
            (if rent ≤ amount then 0 else rent - amount)
            (totalOutstanding db tenantId)
            (decide (1 ≤ completedCycles db tenantId)) pm pd ds
          refine ⟨⟨_, by rw [hdb]; exact hhead, rfl, by rw [hout], by rw [hout],
            by rw [hout]; exact hbal.symm ▸ rfl⟩, ?_, ?_⟩
          · intro hz
            rw [hout] at hz ⊢
            rw [hbal] at hz
            constructor
            · rintro ⟨hcc, -⟩
              have hcond : (decide (1 ≤ completedCycles db tenantId) : Bool) = true ∧
                  totalOutstanding db tenantId = 0 := ⟨by simpa using hcc, hzero⟩
              simp only [hcr, hdeb, if_pos hz, if_pos hcond]
              refine ⟨by ring, by trivial, by ring⟩
            · intro hnot
              have hnot' : ¬((decide (1 ≤ completedCycles db tenantId) : Bool) = true ∧
                  totalOutstanding db tenantId = 0) := by
                rintro ⟨hcc, hz2⟩
                exact hnot ⟨by simpa using hcc, hz2⟩
              simp only [hcr, hdeb, if_pos hz, if_neg hnot']
              exact ⟨trivial, trivial⟩
          · intro hz
            rw [hout] at hz ⊢
            rw [hbal] at hz
            simp only [hcr, hdeb, if_neg (ne_of_gt hz)]
            exact ⟨trivial, trivial⟩

/-- The renewal payment row written by the concrete call below. -/
def wRenewalPayment : Payment :=
  { id := 2, tenantId := 1, propertyId := 1, unitId := none, amount := 1500
    paymentType := "Full", paymentMethod := "Cash", paymentDate := "2025-01-02"
    balanceDue := 0, status := "Paid", description := "", credit := 1350, debit := 150 }

def wRenewalDB : DB :=
  { wFullDB with payments := [wRenewalPayment, wFullPayment], nextPaymentId := 3 }

def wRenewalOut : PaymentOutcome :=
  { paymentType := "Full", balanceDue := 0, credit := 1350, debit := 150 }

theorem wRenewal_eval :
    add_payment wFullDB 1 1500 "Cash" "2025-01-02" "" = .ok (wRenewalDB, wRenewalOut) := by
  norm_num [add_payment, tenantPaymentCtx, persistPayment, totalOutstanding,
    completedCycles, wFullDB, wDB, wTenant, wProperty, wFullPayment, wRenewalDB,
    wRenewalOut, wRenewalPayment]

/-- Witness for C2: in `wFullDB` (one completed cycle, nothing
outstanding) a renewal payment of 1500 completes with credit 1350 and
debit 150, summing to 1500. -/
theorem add_payment_fee_split_witness :
    wRenewalOut.credit = 1500 * (9 / 10) ∧ wRenewalOut.debit = 1500 * (1 / 10) ∧
    wRenewalOut.credit + wRenewalOut.debit = 1500 :=
  ((add_payment_fee_split wFullDB 1 1500 "Cash" "2025-01-02" "" wRenewalDB wRenewalOut
    wRenewal_eval).2.1 (by norm_num [wRenewalOut])).1
    ⟨by norm_num [completedCycles, wFullDB, wDB, wFullPayment],
     by norm_num [totalOutstanding, wFullDB, wDB, wFullPayment]⟩

end RoyalEstate

namespace RoyalEstate

/-! ## C3 -/

/-- Claim C3: a `renew_lease_with_payment` call on a tenant with a prior
Full/zero-balance payment writes exactly two ledger entries — a credit of
the full amount and a debit of 10% of it, for a landlord net of 90% —
regardless of the payment-type hint; otherwise it writes exactly one
credit entry of the full amount. -/
theorem renew_rent_ledger (db : DB) (tenantId : Nat) (sd ed : String) (amount : ℚ)
    (pm hint pd ds : String) (ctx : RenewCtx) (rent : ℚ)
    (hctx : tenantRenewCtx db tenantId = some ctx)
    (hrent : ctx.rentAmount = some rent)
    (ht0 : tenantId ≠ 0) (hsd : sd ≠ "") (hed : ed ≠ "") (hpm : pm ≠ "") :
    (1 ≤ completedCycles db tenantId →
      ∃ db' e1 e2, renew_rent db tenantId sd ed amount pm hint pd ds = .ok db' ∧
        db'.ledger = e2 :: e1 :: db.ledger ∧
        e1.transactionType = "credit" ∧ e1.amount = amount ∧
        e1.landlordId = ctx.landlordId ∧
        e2.transactionType = "debit" ∧ e2.amount = amount * (1 / 10) ∧
        e2.landlordId = ctx.landlordId ∧
        e1.amount - e2.amount = amount * (9 / 10)) ∧
    (completedCycles db tenantId = 0 →
      ∃ db' e1, renew_rent db tenantId sd ed amount pm hint pd ds = .ok db' ∧
        db'.ledger = e1 :: db.ledger ∧
        e1.transactionType = "credit" ∧ e1.amount = amount ∧
        e1.landlordId = ctx.landlordId) := by
  have hval : ¬((tenantId == 0 || sd == "" || ed == "" || pm == "") = true) := by
    simp [ht0, hsd, hed, hpm]
  constructor
  · intro hren
    simp only [renew_rent, hctx, hrent]
    rw [if_neg hval, if_pos (decide_eq_true hren)]
    refine ⟨_, _, _, rfl, rfl, rfl, rfl, rfl, rfl, rfl, rfl, by ring⟩
  · intro hren
    simp only [renew_rent, hctx, hrent]
    rw [if_neg hval, if_neg (by simp [hren])]
    exact ⟨_, _, rfl, rfl, rfl, rfl, rfl⟩

/-- Witness for C3 (the spec's Scenario D): in `wFullDB` a renewal of
2000 with a Partial hint writes a credit of 2000 and a debit of 200, for
a landlord net of 1800. -/
theorem renew_rent_ledger_witness :
    ∃ db' e1 e2,
      renew_rent wFullDB 1 "2025-01-01" "2026-01-01" 2000 "Cash" "Partial"
        "2025-01-02" "" = .ok db' ∧
      db'.ledger = e2 :: e1 :: wFullDB.ledger ∧
      e1.transactionType = "credit" ∧ e1.amount = 2000 ∧
      e2.transactionType = "debit" ∧ e2.amount = 200 ∧
      e1.amount - e2.amount = 1800 := by
  obtain ⟨db', e1, e2, hok, hledg, ht1, ha1, -, ht2, ha2, -, hnet⟩ :=
    (renew_rent_ledger wFullDB 1 "2025-01-01" "2026-01-01" 2000 "Cash" "Partial"
      "2025-01-02" "" wRenewCtx 1500
      (by norm_num [tenantRenewCtx, wFullDB, wDB, wTenant, wProperty, wLandlord,
        wRenewCtx])
      (by norm_num [wRenewCtx]) (by norm_num) (by decide) (by decide)
      (by decide)).1
    (by norm_num [completedCycles, wFullDB, wDB, wFullPayment])
  exact ⟨db', e1, e2, hok, hledg, ht1, ha1, ht2, by rw [ha2]; norm_num,
    by rw [hnet]; norm_num⟩

/-! ## C4 -/

/-- Counterexample to C4 as stated: renewing `wDB`'s tenant (rent due
1500) with amount 2000 and a Partial hint stores a payment row whose
`balance_due` is −500 — negative, not `max 0 (1500 − 2000) = 0`. -/
theorem renew_rent_balance_counterexample :
    ∃ db' p,
      renew_rent wDB 1 "2025-01-01" "2026-01-01" 2000 "Cash" "Partial"
        "2025-01-02" "" = .ok db' ∧
      db'.payments.head? = some p ∧ p.paymentType = "Partial" ∧
      p.balanceDue = -500 ∧ p.balanceDue < 0 ∧
      p.balanceDue ≠ max 0 (1500 - 2000) := by
  refine ⟨_, _, rfl, rfl, rfl, ?_, ?_, ?_⟩ <;>
    norm_num [wTenant, wProperty, Option.none_bind]

/-- Claim C4 (amended): the `renew_lease_with_payment` payment row carries
the caller-supplied payment-type hint, and its `balance_due` equals
`rent_due − amount` when the hint is Partial (with no clamping to 0, so
it is negative whenever `amount > rent_due`) and 0 otherwise. -/
theorem renew_rent_payment_row (db : DB) (tenantId : Nat) (sd ed : String)
    (amount : ℚ) (pm hint pd ds : String) (ctx : RenewCtx) (rent : ℚ)
    (hctx : tenantRenewCtx db tenantId = some ctx)
    (hrent : ctx.rentAmount = some rent)
    (ht0 : tenantId ≠ 0) (hsd : sd ≠ "") (hed : ed ≠ "") (hpm : pm ≠ "") :
    ∃ db' p, renew_rent db tenantId sd ed amount pm hint pd ds = .ok db' ∧
      db'.payments.head? = some p ∧ p.paymentType = hint ∧ p.amount = amount ∧
      p.balanceDue = (if hint = "Partial" then rent - amount else 0) := by
  have hval : ¬((tenantId == 0 || sd == "" || ed == "" || pm == "") = true) := by
    simp [ht0, hsd, hed, hpm]
  simp only [renew_rent, hctx, hrent]
  rw [if_neg hval]
  by_cases hren : decide (1 ≤ completedCycles db tenantId) = true
  · rw [if_pos hren]
    refine ⟨_, _, rfl, rfl, rfl, rfl, ?_⟩
    by_cases hp : hint = "Partial"
    · simp [hp]
    · simp [hp]
  · rw [if_neg hren]
    refine ⟨_, _, rfl, rfl, rfl, rfl, ?_⟩
    by_cases hp : hint = "Partial"
    · simp [hp]
    · simp [hp]

/-- Witness for the amended C4 at the counterexample's input. -/
theorem renew_rent_payment_row_witness :
    ∃ db' p,
      renew_rent wDB 1 "2025-01-01" "2026-01-01" 2000 "Cash" "Partial"
        "2025-01-02" "" = .ok db' ∧
      db'.payments.head? = some p ∧ p.paymentType = "Partial" ∧ p.amount = 2000 ∧
      p.balanceDue =
        (if ("Partial" : String) = "Partial" then (1500 : ℚ) - 2000 else 0) :=
  renew_rent_payment_row wDB 1 "2025-01-01" "2026-01-01" 2000 "Cash" "Partial"
    "2025-01-02" "" wRenewCtx 1500
    (by norm_num [tenantRenewCtx, wDB, wTenant, wProperty, wLandlord, wRenewCtx])
    (by norm_num [wRenewCtx]) (by norm_num) (by decide) (by decide) (by decide)

end RoyalEstate

namespace RoyalEstate

/-! ## C5 -/

theorem persistPayment_payments (db : DB) (tenantId : Nat) (ctx : TenantCtx)
    (amount : ℚ) (pt : String) (bal t_o : ℚ) (isRen : Bool) (pm pd ds : String) :
    (persistPayment db tenantId ctx amount pt bal t_o isRen pm pd ds).1.payments =
      { id := db.nextPaymentId
        tenantId := tenantId
        propertyId := ctx.propertyId
        unitId := ctx.unitId
        amount := amount
        paymentType := pt
        paymentMethod := pm
        paymentDate := pd
        balanceDue := bal
        status := "Paid"
        description := ds
        credit := (persistPayment db tenantId ctx amount pt bal t_o isRen pm pd ds).2.credit
        debit := (persistPayment db tenantId ctx amount pt bal t_o isRen pm pd ds).2.debit } ::
      (if 0 < t_o ∧ bal = 0 then
        db.payments.map (fun p =>
          if p.tenantId == tenantId && decide (0 < p.balanceDue) &&
              p.id != db.nextPaymentId then
            { p with balanceDue := 0, paymentType := "Full" }
          else p)
       else db.payments) := rfl

/-- Claim C5: when a `record_payment` call completes a previously
outstanding balance, every other open payment row of the tenant is
normalized to `balance_due = 0` / `Full`, and afterwards the tenant has
at most one open payment row. -/
theorem add_payment_cleanup (db : DB) (tenantId : Nat) (amount : ℚ)
    (pm pd ds : String) (db' : DB) (out : PaymentOutcome)
    (h : add_payment db tenantId amount pm pd ds = .ok (db', out))
    (hpos : 0 < totalOutstanding db tenantId)
    (hbal : out.balanceDue = 0)
    (hfresh : ∀ p ∈ db.payments, p.id ≠ db.nextPaymentId) :
    (∀ p ∈ db.payments, p.tenantId = tenantId → 0 < p.balanceDue →
      { p with balanceDue := 0, paymentType := "Full" } ∈ db'.payments) ∧
    (db'.payments.filter
      (fun p => p.tenantId == tenantId && decide (0 < p.balanceDue))).length ≤ 1 := by
  unfold add_payment at h
  cases hctx : tenantPaymentCtx db tenantId with
  | none => rw [hctx] at h; cases h
  | some ctx =>
    rw [hctx] at h
    simp only at h
    cases hrent : ctx.rentAmount with
    | none => rw [hrent] at h; simp only at h; cases h
    | some rent =>
      rw [hrent] at h
      simp only at h
      rw [if_pos hpos] at h
      by_cases hgt : totalOutstanding db tenantId < amount
      · rw [if_pos hgt] at h; cases h
      · rw [if_neg hgt] at h
        simp only [Except.ok.injEq] at h
        have hdb : db' = (persistPayment db tenantId ctx amount
            (if totalOutstanding db tenantId ≤ amount then "Full" else "Partial")
            (if totalOutstanding db tenantId ≤ amount then 0
             else totalOutstanding db tenantId - amount)
            (totalOutstanding db tenantId)
            (decide (1 ≤ completedCycles db tenantId)) pm pd ds).1 := by
          rw [h]
        have hout : out = (persistPayment db tenantId ctx amount
            (if totalOutstanding db tenantId ≤ amount then "Full" else "Partial")
            (if totalOutstanding db tenantId ≤ amount then 0
             else totalOutstanding db tenantId - amount)
            (totalOutstanding db tenantId)
            (decide (1 ≤ completedCycles db tenantId)) pm pd ds).2 := by
          rw [h]
        obtain ⟨-, hbalEq, -, -, -⟩ := persistPayment_outcome db tenantId ctx amount
          (if totalOutstanding db tenantId ≤ amount then "Full" else "Partial")
          (if totalOutstanding db tenantId ≤ amount then 0
           else totalOutstanding db tenantId - amount)
          (totalOutstanding db tenantId)
          (decide (1 ≤ completedCycles db tenantId)) pm pd ds
        rw [hout] at hbal
        rw [hbalEq] at hbal
        have hpay : db'.payments =
            { id := db.nextPaymentId
              tenantId := tenantId
              propertyId := ctx.propertyId
              unitId := ctx.unitId
              amount := amount
              paymentType :=
                (if totalOutstanding db tenantId ≤ amount then "Full" else "Partial")
              paymentMethod := pm
              paymentDate := pd
              balanceDue :=
                (if totalOutstanding db tenantId ≤ amount then 0
                 else totalOutstanding db tenantId - amount)
              status := "Paid"
              description := ds
              credit := (persistPayment db tenantId ctx amount
                (if totalOutstanding db tenantId ≤ amount then "Full" else "Partial")
                (if totalOutstanding db tenantId ≤ amount then 0
                 else totalOutstanding db tenantId - amount)
                (totalOutstanding db tenantId)
                (decide (1 ≤ completedCycles db tenantId)) pm pd ds).2.credit
              debit := (persistPayment db tenantId ctx amount
                (if totalOutstanding db tenantId ≤ amount then "Full" else "Partial")
                (if totalOutstanding db tenantId ≤ amount then 0
                 else totalOutstanding db tenantId - amount)
                (totalOutstanding db tenantId)
                (decide (1 ≤ completedCycles db tenantId)) pm pd ds).2.debit } ::
            db.payments.map (fun p =>
              if p.tenantId == tenantId && decide (0 < p.balanceDue) &&
                  p.id != db.nextPaymentId then
                { p with balanceDue := 0, paymentType := "Full" }
              else p) := by
          have hcomp : 0 < totalOutstanding db tenantId ∧
              (if totalOutstanding db tenantId ≤ amount then (0 : ℚ)
               else totalOutstanding db tenantId - amount) = 0 := ⟨hpos, hbal⟩
          rw [hdb, persistPayment_payments, if_pos hcomp]
        constructor
        · intro p hp hpt hpb
          rw [hpay]
          refine List.mem_cons_of_mem _ (List.mem_map.mpr ⟨p, hp, ?_⟩)
          have hc : (p.tenantId == tenantId && decide (0 < p.balanceDue) &&
              (p.id != db.nextPaymentId)) = true := by
            simp [hpt, hpb, hfresh p hp]
          rw [if_pos hc]
        · have hfil : db'.payments.filter
              (fun p => p.tenantId == tenantId && decide (0 < p.balanceDue)) = [] := by
            rw [hpay, List.filter_eq_nil_iff]
            intro q hq
            rcases List.mem_cons.mp hq with rfl | hq'
            · simp [hbal]
            · obtain ⟨p, hp, rfl⟩ := List.mem_map.mp hq'
              have hid : (p.id != db.nextPaymentId) = true := by
                simp [hfresh p hp]
              by_cases hc : (p.tenantId == tenantId && decide (0 < p.balanceDue) &&
                  (p.id != db.nextPaymentId)) = true
              · rw [if_pos hc]
                simp
              · rw [if_neg hc]
                simp only [hid, Bool.and_true] at hc
                exact hc
          rw [hfil]
          simp

end RoyalEstate

namespace RoyalEstate

def wCompletingPayment : Payment :=
  { id := 2, tenantId := 1, propertyId := 1, unitId := none, amount := 500
    paymentType := "Full", paymentMethod := "Cash", paymentDate := "2024-02-02"
    balanceDue := 0, status := "Paid", description := "", credit := 500, debit := 0 }

/-- `wOpenDB` after the completing payment of 500: the open row is
normalized to `balance_due = 0` / `Full`. -/
def wCompleteDB : DB :=
  { wDB with
      payments := [wCompletingPayment,
        { wOpenPayment with balanceDue := 0, paymentType := "Full" }]
      nextPaymentId := 3 }

def wCompleteOut : PaymentOutcome :=
  { paymentType := "Full", balanceDue := 0, credit := 500, debit := 0 }

theorem wComplete_eval :
    add_payment wOpenDB 1 500 "Cash" "2024-02-02" "" = .ok (wCompleteDB, wCompleteOut) := by
  norm_num [add_payment, tenantPaymentCtx, persistPayment, totalOutstanding,
    completedCycles, wOpenDB, wDB, wTenant, wProperty, wOpenPayment, wCompleteDB,
    wCompleteOut, wCompletingPayment]

/-- Witness for C5: after the completing payment in `wOpenDB`, the old
open row appears normalized and at most one open row remains. -/
theorem add_payment_cleanup_witness :
    ({ wOpenPayment with balanceDue := 0, paymentType := "Full" } ∈
      wCompleteDB.payments) ∧
    (wCompleteDB.payments.filter
      (fun p => p.tenantId == 1 && decide (0 < p.balanceDue))).length ≤ 1 := by
  have hres := add_payment_cleanup wOpenDB 1 500 "Cash" "2024-02-02" "" wCompleteDB
    wCompleteOut wComplete_eval
    (by norm_num [totalOutstanding, wOpenDB, wDB, wOpenPayment])
    (by norm_num [wCompleteOut])
    (by norm_num [wOpenDB, wDB, wOpenPayment])
  exact ⟨hres.1 wOpenPayment (by norm_num [wOpenDB, wDB]) rfl
    (by norm_num [wOpenPayment]), hres.2⟩

end RoyalEstate

namespace RoyalEstate

/-! ## C6 -/

/-- Claim C6: every failing `record_payment` call (tenant not found, amount
exceeding the outstanding balance, amount exceeding the rent due — and
any other rolled-back error) leaves the stored state exactly as before
the call, with no payment row or ledger state persisted. -/
theorem add_payment_failure_rolls_back (db : DB) (tenantId : Nat) (amount : ℚ)
    (pm pd ds : String) :
    (∀ e, add_payment db tenantId amount pm pd ds = .error e →
      add_payment_handler db tenantId amount pm pd ds = (db, none)) ∧
    (tenantPaymentCtx db tenantId = none →
      add_payment_handler db tenantId amount pm pd ds = (db, none)) ∧
    (0 < totalOutstanding db tenantId → totalOutstanding db tenantId < amount →
      add_payment_handler db tenantId amount pm pd ds = (db, none)) ∧
    (∀ ctx rent, tenantPaymentCtx db tenantId = some ctx →
      ctx.rentAmount = some rent → totalOutstanding db tenantId = 0 →
      rent < amount →
      add_payment_handler db tenantId amount pm pd ds = (db, none)) := by
  refine ⟨?_, ?_, ?_, ?_⟩
  · intro e he
    unfold add_payment_handler
    rw [he]
  · intro hn
    unfold add_payment_handler
    simp [add_payment, hn]
  · intro hpos hlt
    cases hctx : tenantPaymentCtx db tenantId with
    | none =>
      unfold add_payment_handler
      simp [add_payment, hctx]
    | some ctx =>
      cases hrent : ctx.rentAmount with
      | none =>
        unfold add_payment_handler
        simp [add_payment, hctx, hrent]
      | some rent =>
        have herr : add_payment db tenantId amount pm pd ds =
            .error .exceedsOutstanding := by
          simp only [add_payment, hctx, hrent]
          rw [if_pos hpos, if_pos hlt]
        unfold add_payment_handler
        rw [herr]
  · intro ctx rent hctx hrent hzero hlt
    have herr : add_payment db tenantId amount pm pd ds = .error .exceedsRent := by
      simp only [add_payment, hctx, hrent]
      rw [if_neg (by rw [hzero]; exact lt_irrefl 0), if_pos hlt]
    unfold add_payment_handler
    rw [herr]

/-- Witness for C6 (the spec's Scenario E): submitting 2000 against an
outstanding balance of 500 changes nothing. -/
theorem add_payment_failure_rolls_back_witness :
    add_payment_handler wOpenDB 1 2000 "Cash" "2024-02-02" "" = (wOpenDB, none) :=
  (add_payment_failure_rolls_back wOpenDB 1 2000 "Cash" "2024-02-02" "").2.2.1
    (by norm_num [totalOutstanding, wOpenDB, wDB, wOpenPayment])
    (by norm_num [totalOutstanding, wOpenDB, wDB, wOpenPayment])

end RoyalEstate

namespace RoyalEstate

/-! ## C7 -/

/-- Claim C7: `assign_tenant` rejects an already-assigned tenant, a
unit/property that is not Vacant, and a unit that does not belong to the
given property, leaving the stored state unchanged on every rejection;
on success the target becomes Occupied and, for a unit assignment, the
parent property is promoted to Occupied exactly when all of its units
are then Occupied. -/
theorem assign_tenant_spec (db : DB) (tenantId propertyId : Nat)
    (unitId : Option Nat) :
    (∀ e, assign_tenant db tenantId propertyId unitId = .error e →
      assign_tenant_handler db tenantId propertyId unitId = (db, some e)) ∧
    (∀ t, tenantId ≠ 0 → propertyId ≠ 0 →
      db.tenants.find? (fun s => s.id == tenantId) = some t →
      (t.propertyId.isSome ∨ t.unitId.isSome) →
      assign_tenant db tenantId propertyId unitId = .error .alreadyAssigned) ∧
    (∀ t u uid, tenantId ≠ 0 → propertyId ≠ 0 →
      db.tenants.find? (fun s => s.id == tenantId) = some t →
      t.propertyId = none → t.unitId = none → unitId = some uid →
      db.units.find? (fun w => w.id == uid) = some u →
      (u.propertyId ≠ propertyId →
        assign_tenant db tenantId propertyId unitId = .error .unitPropertyMismatch) ∧
      (u.propertyId = propertyId → u.status ≠ "Vacant" →
        assign_tenant db tenantId propertyId unitId = .error .unitNotAvailable) ∧
      (u.propertyId = propertyId → u.status = "Vacant" →
        ∃ db', assign_tenant db tenantId propertyId unitId = .ok db' ∧
          ({ u with status := "Occupied", tenantId := some tenantId } ∈ db'.units) ∧
          (∀ s ∈ db.tenants, s.id = tenantId →
            { s with propertyId := some propertyId, unitId := some uid } ∈
              db'.tenants) ∧
          (∀ pr ∈ db.properties, pr.id = propertyId →
            ((db'.units.filter (fun w => w.propertyId == propertyId) ≠ [] ∧
              ∀ w ∈ db'.units, w.propertyId = propertyId → w.status = "Occupied") →
              { pr with status := "Occupied" } ∈ db'.properties) ∧
            (¬(db'.units.filter (fun w => w.propertyId == propertyId) ≠ [] ∧
              ∀ w ∈ db'.units, w.propertyId = propertyId → w.status = "Occupied") →
              pr ∈ db'.properties)))) ∧
    (∀ t pr, tenantId ≠ 0 → propertyId ≠ 0 →
      db.tenants.find? (fun s => s.id == tenantId) = some t →
      t.propertyId = none → t.unitId = none → unitId = none →
      db.properties.find? (fun q => q.id == propertyId) = some pr →
      (pr.status ≠ "Vacant" →
        assign_tenant db tenantId propertyId unitId = .error .propertyNotAvailable) ∧
      (pr.status = "Vacant" →
        ∃ db', assign_tenant db tenantId propertyId unitId = .ok db' ∧
          ({ pr with status := "Occupied" } ∈ db'.properties) ∧
          (∀ s ∈ db.tenants, s.id = tenantId →
            { s with propertyId := some propertyId, unitId := none } ∈
              db'.tenants))) := by
  refine ⟨?_, ?_, ?_, ?_⟩
  · intro e he
    unfold assign_tenant_handler
    rw [he]
  · intro t ht0 hp0 hfind hassigned
    simp only [assign_tenant]
    rw [if_neg (by simp [ht0, hp0]), hfind]
    simp only
    rw [if_pos (by rcases hassigned with h | h <;> simp [h])]
  · intro t u uid ht0 hp0 hfind htp htu huid hufind
    have hbase : ∀ (r : Except AssignError DB),
        (match db.units.find? (fun w => w.id == uid) with
          | none => Except.error AssignError.unitNotFound
          | some u => r) = r := by
      intro r
      rw [hufind]
    refine ⟨?_, ?_, ?_⟩
    · intro hmis
      simp only [assign_tenant]
      rw [if_neg (by simp [ht0, hp0]), hfind]
      simp only
      rw [if_neg (by simp [htp, htu]), huid]
      simp only
      rw [hufind]
      simp only
      rw [if_pos (by simp [hmis])]
    · intro heq hst
      simp only [assign_tenant]
      rw [if_neg (by simp [ht0, hp0]), hfind]
      simp only
      rw [if_neg (by simp [htp, htu]), huid]
      simp only
      rw [hufind]
      simp only
      rw [if_neg (by simp [heq]), if_pos (by simp [hst])]
    · intro heq hst
      simp only [assign_tenant]
      rw [if_neg (by simp [ht0, hp0]), hfind]
      simp only
      rw [if_neg (by simp [htp, htu]), huid]
      simp only
      rw [hufind]
      simp only
      rw [if_neg (by simp [heq]), if_neg (by simp [hst])]
      refine ⟨_, rfl, ?_, ?_, ?_⟩
      · have hu : u ∈ db.units := List.mem_of_find?_eq_some hufind
        have hid := List.find?_some hufind
        refine List.mem_map.mpr ⟨u, hu, ?_⟩
        rw [if_pos hid]
      · intro s hs hsid
        refine List.mem_map.mpr ⟨s, hs, ?_⟩
        rw [if_pos (by simp [hsid])]
      · intro pr hpr hprid
        have h2 := length_filter_and_eq_iff
          (db.units.map (fun w =>
            if w.id == uid then
              { w with status := "Occupied", tenantId := some tenantId }
            else w))
          (fun w => w.propertyId == propertyId) (fun w => w.status == "Occupied")
        constructor
        · intro hocc
          have hC : ((db.units.map (fun w =>
                if w.id == uid then
                  { w with status := "Occupied", tenantId := some tenantId }
                else w)).filter (fun w => w.propertyId == propertyId)).length ≠ 0 ∧
              ((db.units.map (fun w =>
                if w.id == uid then
                  { w with status := "Occupied", tenantId := some tenantId }
                else w)).filter (fun w => w.propertyId == propertyId)).length =
              ((db.units.map (fun w =>
                if w.id == uid then
                  { w with status := "Occupied", tenantId := some tenantId }
                else w)).filter
                  (fun w => w.propertyId == propertyId &&
                    w.status == "Occupied")).length := by
            constructor
            · intro hlen
              exact hocc.1 (List.length_eq_zero.mp hlen)
            · refine h2.mpr ?_
              intro w hw hwp
              have := hocc.2 w hw (by simpa using hwp)
              simp [this]
          simp only
          rw [if_pos hC]
          refine List.mem_map.mpr ⟨pr, hpr, ?_⟩
          rw [if_pos (by simp [hprid])]
        · intro hnocc
          have hnC : ¬(((db.units.map (fun w =>
                if w.id == uid then
                  { w with status := "Occupied", tenantId := some tenantId }
                else w)).filter (fun w => w.propertyId == propertyId)).length ≠ 0 ∧
              ((db.units.map (fun w =>
                if w.id == uid then
                  { w with status := "Occupied", tenantId := some tenantId }
                else w)).filter (fun w => w.propertyId == propertyId)).length =
              ((db.units.map (fun w =>
                if w.id == uid then
                  { w with status := "Occupied", tenantId := some tenantId }
                else w)).filter
                  (fun w => w.propertyId == propertyId &&
                    w.status == "Occupied")).length) := by
            rintro ⟨hne, hlen⟩
            refine hnocc ⟨?_, ?_⟩
            · intro hnil
              exact hne (by rw [hnil]; rfl)
            · intro w hw hwp
              have := h2.mp hlen w hw (by simp [hwp])
              simpa using this
          simp only
          rw [if_neg hnC]
          exact hpr
  · intro t pr ht0 hp0 hfind htp htu huid hpfind
    refine ⟨?_, ?_⟩
    · intro hst
      simp only [assign_tenant]
      rw [if_neg (by simp [ht0, hp0]), hfind]
      simp only
      rw [if_neg (by simp [htp, htu]), huid]
      simp only
      rw [hpfind]
      simp only
      rw [if_pos (by simp [hst])]
    · intro hst
      simp only [assign_tenant]
      rw [if_neg (by simp [ht0, hp0]), hfind]
      simp only
      rw [if_neg (by simp [htp, htu]), huid]
      simp only
      rw [hpfind]
      simp only
      rw [if_neg (by simp [hst])]
      refine ⟨_, rfl, ?_, ?_⟩
      · have hp : pr ∈ db.properties := List.mem_of_find?_eq_some hpfind
        have hprid := List.find?_some hpfind
        refine List.mem_map.mpr ⟨pr, hp, ?_⟩
        rw [if_pos hprid]
      · intro s hs hsid
        refine List.mem_map.mpr ⟨s, hs, ?_⟩
        rw [if_pos (by simp [hsid])]

end RoyalEstate

namespace RoyalEstate

def wMultiProperty : Property :=
  { id := 2, landlordId := 1, price := 0, status := "Vacant" }

def wVacantUnit : PropUnit :=
  { id := 5, propertyId := 2, price := 800, status := "Vacant", tenantId := none }

def wOccupiedUnit : PropUnit :=
  { id := 6, propertyId := 2, price := 800, status := "Occupied", tenantId := some 9 }

def wFreeTenant : Tenant :=
  { id := 2, fullName := "Ngozi Eze", propertyId := none, unitId := none
    leaseStartDate := "", leaseEndDate := "" }

/-- A multi-unit property with one vacant and one occupied unit, and an
unassigned tenant. -/
def wAssignDB : DB :=
  { landlords := [wLandlord], properties := [wMultiProperty]
    units := [wVacantUnit, wOccupiedUnit], tenants := [wFreeTenant]
    payments := [], ledger := [], nextPaymentId := 1, nextLedgerId := 1 }

/-- Witness for C7 (the spec's Scenario F): assigning the free tenant to
the already-Occupied unit is rejected and the stored state is unchanged. -/
theorem assign_tenant_spec_witness :
    assign_tenant wAssignDB 2 2 (some 6) = .error .unitNotAvailable ∧
    assign_tenant_handler wAssignDB 2 2 (some 6) =
      (wAssignDB, some .unitNotAvailable) := by
  have hspec := assign_tenant_spec wAssignDB 2 2 (some 6)
  have herr := (hspec.2.2.1 wFreeTenant wOccupiedUnit 6
    (by norm_num) (by norm_num) rfl rfl rfl rfl rfl).2.1 rfl (by decide)
  exact ⟨herr, hspec.1 _ herr⟩

end RoyalEstate

namespace RoyalEstate

/-! ## C8 -/

/-- Claim C8: in a landlord statement the running balance starts at 0 and
obeys `balanceᵢ = balanceᵢ₋₁ + creditᵢ − debitᵢ` over the date-sorted
merged lines, the final balance equals total credits minus total debits
of the participating rows, and permuting the rows (in particular
same-date rows) never changes the final balance. -/
theorem landlord_statement_running_balance (db : DB) (landlordId : Nat) :
    (∀ x ∈ (landlord_account_detail db landlordId).head?,
      x.2 = 0 + x.1.credit - x.1.debit) ∧
    List.Chain' (fun x y : StatementLine × ℚ => y.2 = x.2 + y.1.credit - y.1.debit)
      (landlord_account_detail db landlordId) ∧
    runBalance 0 (sortByDate (mergedLines db landlordId)) =
      ((mergedLines db landlordId).map (fun e => e.credit)).sum -
      ((mergedLines db landlordId).map (fun e => e.debit)).sum ∧
    (∀ l', (mergedLines db landlordId).Perm l' →
      runBalance 0 (sortByDate l') =
        runBalance 0 (sortByDate (mergedLines db landlordId))) := by
  refine ⟨?_, ?_, ?_, ?_⟩
  · intro x hx
    unfold landlord_account_detail at hx
    cases hl : sortByDate (mergedLines db landlordId) with
    | nil => rw [hl] at hx; simp [annotateBalances] at hx
    | cons e es =>
      rw [hl, annotateBalances_head] at hx
      simp only [Option.mem_def, Option.some.injEq] at hx
      subst hx
      rfl
  · exact annotateBalances_chain 0 _
  · rw [runBalance_eq_sum, zero_add]
    have hperm := (sortByDate_perm (mergedLines db landlordId)).map
      (fun e => e.credit - e.debit)
    rw [hperm.sum_eq, map_credit_sub_debit_sum]
  · intro l' hp
    rw [runBalance_eq_sum, runBalance_eq_sum, zero_add, zero_add]
    have h1 := (sortByDate_perm l').map (fun e => e.credit - e.debit)
    have h2 := (sortByDate_perm (mergedLines db landlordId)).map
      (fun e => e.credit - e.debit)
    have h3 := hp.map (fun e => e.credit - e.debit)
    rw [h1.sum_eq, h2.sum_eq, h3.sum_eq]

def wCreditEntry : LedgerEntry :=
  { id := 1, landlordId := 1, date := "2024-01-02", narration := "Top-up"
    transactionType := "credit", amount := 100, paymentMethod := "Cash" }

def wDebitEntry : LedgerEntry :=
  { id := 2, landlordId := 1, date := "2024-01-02", narration := "Fee"
    transactionType := "debit", amount := 50, paymentMethod := "Cash" }

/-- `wDB` plus one payment and two same-date manual ledger entries. -/
def wStmtDB : DB :=
  { wDB with
      payments := [wFullPayment]
      ledger := [wCreditEntry, wDebitEntry]
      nextPaymentId := 2
      nextLedgerId := 3 }

def wLineP : StatementLine :=
  { date := "2024-01-02", narration := "Payment from Tunde Bello"
    modeOfPayment := "Cash", credit := 1500, debit := 0, source := "payment"
    metaId := 1 }

def wLineC : StatementLine :=
  { date := "2024-01-02", narration := "Top-up", modeOfPayment := "Cash"
    credit := 100, debit := 0, source := "manual", metaId := 1 }

def wLineD : StatementLine :=
  { date := "2024-01-02", narration := "Fee", modeOfPayment := "Cash"
    credit := 0, debit := 50, source := "manual", metaId := 2 }

/-- Witness for C8: reordering the three same-date lines of `wStmtDB`'s
statement does not change the final balance. -/
theorem landlord_statement_running_balance_witness :
    runBalance 0 (sortByDate [wLineD, wLineC, wLineP]) =
      runBalance 0 (sortByDate (mergedLines wStmtDB 1)) :=
  (landlord_statement_running_balance wStmtDB 1).2.2.2 [wLineD, wLineC, wLineP]
    (by have hml : mergedLines wStmtDB 1 = [wLineP, wLineC, wLineD] := by decide
        rw [hml]
        decide)

end RoyalEstate

namespace RoyalEstate

/-! ## C9 -/

/-- Claim C9: the dashboard's general balance is the sum over every
landlord of (payments for its properties) + (manual credit entries) −
(manual debit entries), where the credit/debit CASE-sums equal plain
sums over the filtered entries. -/
theorem general_balance_spec (db : DB) :
    general_balance_all_landlords db =
      (db.landlords.map (fun l =>
        paymentsTotalFor db l.id + manualCreditsFor db l.id -
        manualDebitsFor db l.id)).sum ∧
    (∀ lid, manualCreditsFor db lid =
      ((db.ledger.filter (fun e => e.landlordId == lid &&
        e.transactionType == "credit")).map (fun e => e.amount)).sum) ∧
    (∀ lid, manualDebitsFor db lid =
      ((db.ledger.filter (fun e => e.landlordId == lid &&
        e.transactionType == "debit")).map (fun e => e.amount)).sum) := by
  refine ⟨?_, ?_, ?_⟩
  · unfold general_balance_all_landlords
    rw [foldl_add_eq_sum (fun l => paymentsTotalFor db l.id +
      manualCreditsFor db l.id - manualDebitsFor db l.id) db.landlords 0, zero_add]
  · intro lid
    exact filter_case_sum db.ledger (fun e => e.landlordId == lid)
      (fun e => e.transactionType == "credit")
  · intro lid
    exact filter_case_sum db.ledger (fun e => e.landlordId == lid)
      (fun e => e.transactionType == "debit")

/-! ## C10 -/

/-- A tenant assigned to a property whose price is 0. -/
def wZeroRentProperty : Property :=
  { id := 3, landlordId := 1, price := 0, status := "Occupied" }

def wZeroRentTenant : Tenant :=
  { id := 3, fullName := "Zed Zero", propertyId := some 3, unitId := none
    leaseStartDate := "2024-01-01", leaseEndDate := "2025-01-01" }

def wZeroRentDB : DB :=
  { landlords := [wLandlord], properties := [wZeroRentProperty], units := []
    tenants := [wZeroRentTenant], payments := [], ledger := []
    nextPaymentId := 1, nextLedgerId := 1 }

/-- Counterexample to C10 as stated: for a tenant whose resolved rent
due is 0, the call with `amount = 0` (≤ 0) is not classified Partial —
it is accepted as Full with `balance_due = 0`. -/
theorem add_payment_nonpositive_counterexample :
    ∃ db' out, add_payment wZeroRentDB 3 0 "Cash" "2024-01-02" "" = .ok (db', out) ∧
      totalOutstanding wZeroRentDB 3 = 0 ∧
      out.paymentType = "Full" ∧ out.paymentType ≠ "Partial" ∧
      out.balanceDue = 0 := by
  refine ⟨_, _, rfl, rfl, rfl, by decide, rfl⟩

/-- Claim C10 (amended): `record_payment` performs no positivity check on
the amount: for `amount ≤ 0` on an existing assigned tenant whose rent
due is positive, the call is not rejected; with no outstanding balance
it persists a Partial row with `balance_due = rent_due − amount ≥
rent_due` and credit = debit = 0, and with an outstanding balance it
persists a Partial row with `balance_due = total_outstanding − amount`. -/
theorem add_payment_no_positivity_check (db : DB) (tenantId : Nat) (amount : ℚ)
    (pm pd ds : String) (ctx : TenantCtx) (rent : ℚ)
    (hctx : tenantPaymentCtx db tenantId = some ctx)
    (hrent : ctx.rentAmount = some rent) (hamt : amount ≤ 0) :
    (totalOutstanding db tenantId = 0 → 0 < rent →
      ∃ db' out, add_payment db tenantId amount pm pd ds = .ok (db', out) ∧
        out.paymentType = "Partial" ∧ out.balanceDue = rent - amount ∧
        rent ≤ out.balanceDue ∧ out.credit = 0 ∧ out.debit = 0 ∧
        ∃ p, db'.payments.head? = some p ∧ p.amount = amount ∧
          p.paymentType = "Partial" ∧ p.balanceDue = rent - amount ∧
          p.credit = 0 ∧ p.debit = 0) ∧
    (0 < totalOutstanding db tenantId →
      ∃ db' out, add_payment db tenantId amount pm pd ds = .ok (db', out) ∧
        out.paymentType = "Partial" ∧
        out.balanceDue = totalOutstanding db tenantId - amount ∧
        ∃ p, db'.payments.head? = some p ∧ p.paymentType = "Partial" ∧
          p.balanceDue = totalOutstanding db tenantId - amount) := by
  constructor
  · intro hzero hrpos
    have hlt : amount < rent := lt_of_le_of_lt hamt hrpos
    have hnlt : ¬rent < amount := not_lt.mpr hlt.le
    have hnle : ¬rent ≤ amount := not_le.mpr hlt
    have hb : (if rent ≤ amount then (0 : ℚ) else rent - amount) = rent - amount :=
      if_neg hnle
    have hbne : rent - amount ≠ 0 := ne_of_gt (by linarith)
    obtain ⟨hpt, hbal, hcr, hdeb, hhead⟩ := persistPayment_outcome db tenantId ctx
      amount (if rent ≤ amount then "Full" else "Partial")
      (if rent ≤ amount then 0 else rent - amount)
      (totalOutstanding db tenantId)
      (decide (1 ≤ completedCycles db tenantId)) pm pd ds
    have heq : add_payment db tenantId amount pm pd ds =
        .ok ((persistPayment db tenantId ctx amount
          (if rent ≤ amount then "Full" else "Partial")
          (if rent ≤ amount then 0 else rent - amount)
          (totalOutstanding db tenantId)
          (decide (1 ≤ completedCycles db tenantId)) pm pd ds).1,
         (persistPayment db tenantId ctx amount
          (if rent ≤ amount then "Full" else "Partial")
          (if rent ≤ amount then 0 else rent - amount)
          (totalOutstanding db tenantId)
          (decide (1 ≤ completedCycles db tenantId)) pm pd ds).2) := by
      simp only [add_payment, hctx, hrent]
      rw [if_neg (by rw [hzero]; exact lt_irrefl 0), if_neg hnlt]
    refine ⟨_, _, heq, ?_, ?_, ?_, ?_, ?_, _, hhead, rfl, ?_, ?_, ?_, ?_⟩
    · rw [hpt, if_neg hnle]
    · rw [hbal, hb]
    · rw [hbal, hb]
      linarith
    · rw [hcr, hb, if_neg hbne]
    · rw [hdeb, hb, if_neg hbne]
    · exact if_neg hnle
    · exact hb
    · show (persistPayment db tenantId ctx amount
          (if rent ≤ amount then "Full" else "Partial")
          (if rent ≤ amount then 0 else rent - amount)
          (totalOutstanding db tenantId)
          (decide (1 ≤ completedCycles db tenantId)) pm pd ds).2.credit = 0
      rw [hcr, hb, if_neg hbne]
    · show (persistPayment db tenantId ctx amount
          (if rent ≤ amount then "Full" else "Partial")
          (if rent ≤ amount then 0 else rent - amount)
          (totalOutstanding db tenantId)
          (decide (1 ≤ completedCycles db tenantId)) pm pd ds).2.debit = 0
      rw [hdeb, hb, if_neg hbne]
  · intro hpos
    have hlt : amount < totalOutstanding db tenantId := lt_of_le_of_lt hamt hpos
    have hnlt : ¬totalOutstanding db tenantId < amount := not_lt.mpr hlt.le
    have hnle : ¬totalOutstanding db tenantId ≤ amount := not_le.mpr hlt
    have hb : (if totalOutstanding db tenantId ≤ amount then (0 : ℚ)
        else totalOutstanding db tenantId - amount) =
        totalOutstanding db tenantId - amount := if_neg hnle
    obtain ⟨hpt, hbal, hcr, hdeb, hhead⟩ := persistPayment_outcome db tenantId ctx
      amount (if totalOutstanding db tenantId ≤ amount then "Full" else "Partial")
      (if totalOutstanding db tenantId ≤ amount then 0
       else totalOutstanding db tenantId - amount)
      (totalOutstanding db tenantId)
      (decide (1 ≤ completedCycles db tenantId)) pm pd ds
    have heq : add_payment db tenantId amount pm pd ds =
        .ok ((persistPayment db tenantId ctx amount
          (if totalOutstanding db tenantId ≤ amount then "Full" else "Partial")
          (if totalOutstanding db tenantId ≤ amount then 0
           else totalOutstanding db tenantId - amount)
          (totalOutstanding db tenantId)
          (decide (1 ≤ completedCycles db tenantId)) pm pd ds).1,
         (persistPayment db tenantId ctx amount
          (if totalOutstanding db tenantId ≤ amount then "Full" else "Partial")
          (if totalOutstanding db tenantId ≤ amount then 0
           else totalOutstanding db tenantId - amount)
          (totalOutstanding db tenantId)
          (decide (1 ≤ completedCycles db tenantId)) pm pd ds).2) := by
      simp only [add_payment, hctx, hrent]
      rw [if_pos hpos, if_neg hnlt]
    refine ⟨_, _, heq, ?_, ?_, _, hhead, ?_, ?_⟩
    · rw [hpt, if_neg hnle]
    · rw [hbal, hb]
    · exact if_neg hnle
    · exact hb

/-- Witness for the amended C10: a zero amount against `wDB`'s tenant
(rent 1500, nothing outstanding) is accepted as Partial with
`balance_due = 1500`. -/
theorem add_payment_no_positivity_check_witness :
    ∃ db' out, add_payment wDB 1 0 "Cash" "2024-01-02" "" = .ok (db', out) ∧
      out.paymentType = "Partial" ∧ out.balanceDue = 1500 - 0 ∧
      (1500 : ℚ) ≤ out.balanceDue ∧ out.credit = 0 ∧ out.debit = 0 ∧
      ∃ p, db'.payments.head? = some p ∧ p.amount = 0 ∧
        p.paymentType = "Partial" ∧ p.balanceDue = 1500 - 0 ∧
        p.credit = 0 ∧ p.debit = 0 :=
  (add_payment_no_positivity_check wDB 1 0 "Cash" "2024-01-02" "" wCtx 1500
    (by norm_num [tenantPaymentCtx, wDB, wTenant, wProperty, wCtx])
    (by norm_num [wCtx]) le_rfl).1
    (by norm_num [totalOutstanding, wDB]) (by norm_num)

end RoyalEstate
